import Mathlib

/-!
Verification of the SolProd contact-form backend (`src/main.py`).

The development shallowly embeds the request-validation and
notification-dispatch pipeline of the service: the pydantic field
validators, the f-string construction of the plain-text and rich-text
(HTML) notification bodies, the reply-to handling of `send_email`, the
`RequestValidationError` handler, the endpoint error handling, and the
per-client rate limit declared on each endpoint.

Python string primitives (`str.strip`, `str.capitalize`, `str.replace`,
the regex classes `\d` and `\s`, truthiness) are modelled at the ASCII
level: `\d` is `Char.isDigit` and `\s` is the six ASCII whitespace
characters.  This coincides with CPython's behaviour on ASCII inputs;
Python additionally admits non-ASCII Unicode digit and space characters.
-/

namespace SolBackForm

/-- Python ASCII whitespace: the characters matched by `\s` (and stripped
by `str.strip()`) on ASCII input. -/
def pyIsSpace (c : Char) : Bool :=
  c == ' ' || c == '\t' || c == '\n' || c == '\r' || c == '\x0b' || c == '\x0c'

/-- Python `str.strip()` on ASCII input: drop leading and trailing
whitespace. -/
def pyStrip (s : String) : String :=
  String.mk (((s.data.dropWhile pyIsSpace).reverse.dropWhile pyIsSpace).reverse)

/-- Python `str.capitalize()` on ASCII input: first character upper-cased,
the rest lower-cased. -/
def pyCapitalize (s : String) : String :=
  match s.data with
  | [] => ""
  | c :: cs => String.mk (c.toUpper :: cs.map Char.toLower)

/-- Python `str.replace(old, new)` for a single-character pattern, as used
by `comment.replace(chr(10), '<br>')` in `main.py`. -/
def pyReplaceChar (s : String) (old : Char) (new : String) : String :=
  String.mk (s.data.foldr (fun c acc => if c == old then new.data ++ acc else c :: acc) [])

/-- Python truthiness of an `Optional[str]`: `None` and `""` are falsy. -/
def pyTruthy : Option String → Bool
  | none => false
  | some s => s != ""

/-- Separator characters stripped before counting digits: the regex class
`[\s\+\-\(\)]` of `re.sub(r'[\s\+\-\(\)]', '', v)` in `main.py`. -/
def isPhoneSeparator (c : Char) : Bool :=
  pyIsSpace c || c == '+' || c == '-' || c == '(' || c == ')'

/-- Characters admitted by the phone regex `^[\d\s\+\-\(\)]+$` of
`main.py`: a digit or one of the separator characters. -/
def isPhoneChar (c : Char) : Bool :=
  c.isDigit || isPhoneSeparator c

/-- Result of `re.sub(r'[\s\+\-\(\)]', '', v)`: the input with all
separator characters removed. -/
def stripSeparators (v : String) : String :=
  String.mk (v.data.filter (fun c => !isPhoneSeparator c))

/-- Validator `name_must_not_be_empty` of both request models in
`main.py`: trims, rejects empty and shorter-than-2 names, returns the
trimmed value. -/
def validateName (v : String) : Except String String :=
  if pyStrip v == "" then
    Except.error "Name cannot be empty"
  else if (pyStrip v).length < 2 then
    Except.error "Name must be at least 2 characters long"
  else
    Except.ok (pyStrip v)

/-- Validator `phone_must_be_valid` of both request models in `main.py`:
the whole string must match `^[\d\s\+\-\(\)]+$` (hence be non-empty), at
least 10 characters must remain after removing `[\s\+\-\(\)]`, and the
value returned is `v.strip()`. -/
def validatePhone (v : String) : Except String String :=
  if !(v.data.all isPhoneChar) || v.data.isEmpty then
    Except.error "Invalid phone number format"
  else if (stripSeparators v).length < 10 then
    Except.error "Phone number must contain at least 10 digits"
  else
    Except.ok (pyStrip v)

/-- Validator `comment_must_not_be_empty` of both request models in
`main.py`: trims, rejects empty and shorter-than-10 comments, returns the
trimmed value. -/
def validateComment (v : String) : Except String String :=
  if pyStrip v == "" then
    Except.error "Comment cannot be empty"
  else if (pyStrip v).length < 10 then
    Except.error "Comment must be at least 10 characters long"
  else
    Except.ok (pyStrip v)

/-- Validator `rating_must_be_valid` of `ReviewRequest` in `main.py`:
rejects ratings outside `[1, 5]`, returns the value unchanged. -/
def validateRating (v : Int) : Except String Int :=
  if v < 1 ∨ v > 5 then
    Except.error "Rating must be between 1 and 5"
  else
    Except.ok v

/-- Pydantic model `DiscussProjectRequest` of `main.py` (fields after
validation). -/
structure DiscussProjectRequest where
  name : String
  email : String
  phone : String
  productName : Option String
  comment : String
deriving Repr, DecidableEq

/-- Pydantic model `ReviewRequest` of `main.py` (fields after
validation). -/
structure ReviewRequest where
  name : String
  phone : String
  rating : Int
  comment : String
deriving Repr, DecidableEq

/-- Outbound notification assembled by an endpoint handler and passed to
`send_email` in `main.py`: subject, the two alternative bodies, the
optional `Reply-To` value and the recipient address. -/
structure Notification where
  subject : String
  plainBody : String
  richBody : String
  replyTo : Option String
  recipient : String
deriving Repr, DecidableEq

/-- Value of the f-string `admin_text` of `discuss_project` in `main.py`,
up to (and including) the `Received at: ` label; the timestamp produced by
`datetime.now().strftime(...)` follows it.  The `Label: ` prefixes are
kept as separate literals so that containment proofs can split the
concatenation; the concatenated value is exactly the Python one. -/
def discussPlainPre (d : DiscussProjectRequest) : String :=
  "\nNew Project Discussion Request\n\n"
    ++ "Name: " ++ d.name
    ++ "\n" ++ "Email: " ++ d.email
    ++ "\n" ++ "Phone: " ++ d.phone
    ++ "\n"
    ++ (if pyTruthy d.productName then "Product Name: " ++ d.productName.getD "" else "")
    ++ "\n\n"
    ++ "Comment:\n" ++ d.comment
    ++ "\n\n"
    ++ "Received at: "

/-- Plain-text body `admin_text` of `discuss_project` in `main.py`;
`t` stands for `datetime.now().strftime('%Y-%m-%d %H:%M:%S')`. -/
def discussPlainBody (d : DiscussProjectRequest) (t : String) : String :=
  discussPlainPre d ++ t ++ "\n        "

/-- Value of the f-string `admin_html` of `discuss_project` in `main.py`,
up to (and including) the `Received at: ` label of the footer.  Literal
braces of the CSS (written `{{`/`}}` in the Python source) are `\x7b`/
`\x7d` here; every user field is interpolated raw, exactly as in the
source, and only the comment's newlines are rewritten to `<br>`. -/
def discussRichPre (d : DiscussProjectRequest) : String :=
  "\n        <!DOCTYPE html>\n        <html>\n        <head>\n            <style>\n                body \x7b font-family: Arial, sans-serif; line-height: 1.6; color: #333; \x7d\n                .container \x7b max-width: 600px; margin: 0 auto; padding: 20px; \x7d\n                .header \x7b background: linear-gradient(135deg, #667eea 0%, #764ba2 100%); color: white; padding: 20px; border-radius: 5px 5px 0 0; \x7d\n                .content \x7b background: #f9f9f9; padding: 30px; border-radius: 0 0 5px 5px; \x7d\n                .field \x7b margin-bottom: 20px; \x7d\n                .field-label \x7b font-weight: bold; color: #667eea; margin-bottom: 5px; \x7d\n                .field-value \x7b background: white; padding: 10px; border-radius: 3px; border-left: 3px solid #667eea; \x7d\n                .footer \x7b text-align: center; margin-top: 20px; color: #888; font-size: 12px; \x7d\n            </style>\n        </head>\n        <body>\n            <div class=\"container\">\n                <div class=\"header\">\n                    <h2>🎯 New Project Discussion Request</h2>\n                </div>\n                <div class=\"content\">\n                    <div class=\"field\">\n                        <div class=\"field-label\">👤 Name:</div>\n                        <div class=\"field-value\">"
    ++ d.name
    ++ "</div>\n                    </div>\n                    <div class=\"field\">\n                        <div class=\"field-label\">📧 Email:</div>\n                        <div class=\"field-value\"><a href=\"mailto:"
    ++ d.email
    ++ "\">"
    ++ d.email
    ++ "</a></div>\n                    </div>\n                    <div class=\"field\">\n                        <div class=\"field-label\">📱 Phone:</div>\n                        <div class=\"field-value\"><a href=\"tel:"
    ++ d.phone
    ++ "\">"
    ++ d.phone
    ++ "</a></div>\n                    </div>\n                    "
    ++ (if pyTruthy d.productName then
          "<div class=\"field\">\n                        <div class=\"field-label\">🏷️ Product Name:</div>\n                        <div class=\"field-value\">"
            ++ d.productName.getD ""
            ++ "</div>\n                    </div>"
        else "")
    ++ "\n                    <div class=\"field\">\n                        <div class=\"field-label\">💬 Comment:</div>\n                        <div class=\"field-value\">"
    ++ pyReplaceChar d.comment '\n' "<br>"
    ++ "</div>\n                    </div>\n                    <div class=\"footer\">\n                        <p>Received at: "

/-- Closing part of both HTML bodies of `main.py`, from the character
after the timestamp to the end of the f-string. -/
def richSuffix : String :=
  "</p>\n                    </div>\n                </div>\n            </div>\n        </body>\n        </html>\n        "

/-- Rich-text body `admin_html` of `discuss_project` in `main.py`. -/
def discussRichBody (d : DiscussProjectRequest) (t : String) : String :=
  discussRichPre d ++ t ++ richSuffix

/-- Plain-text body of `submit_review` in `main.py`: the inline f-string
passed as `text_content` — note it carries no phone, no labels for name
and comment, and no timestamp. -/
def reviewPlainBody (r : ReviewRequest) : String :=
  "New Review from " ++ r.name ++ "\nRating: " ++ toString r.rating ++ "/5\n\n" ++ r.comment

/-- Star string of `submit_review`: `'⭐' * rating + '☆' * (5 - rating)`
(Python string repetition clamps negative counts to the empty string, as
`Int.toNat` does). -/
def starsFor (rating : Int) : String :=
  String.mk (List.replicate rating.toNat '⭐')
    ++ String.mk (List.replicate (5 - rating).toNat '☆')

/-- Value of the f-string `admin_html` of `submit_review` in `main.py`,
up to (and including) the `Received at: ` label of the footer. -/
def reviewRichPre (r : ReviewRequest) : String :=
  "\n        <!DOCTYPE html>\n        <html>\n        <head>\n            <style>\n                body \x7b font-family: Arial, sans-serif; line-height: 1.6; color: #333; \x7d\n                .container \x7b max-width: 600px; margin: 0 auto; padding: 20px; \x7d\n                .header \x7b background: linear-gradient(135deg, #f093fb 0%, #f5576c 100%); color: white; padding: 20px; border-radius: 5px 5px 0 0; \x7d\n                .content \x7b background: #f9f9f9; padding: 30px; border-radius: 0 0 5px 5px; \x7d\n                .field \x7b margin-bottom: 20px; \x7d\n                .field-label \x7b font-weight: bold; color: #f5576c; margin-bottom: 5px; \x7d\n                .field-value \x7b background: white; padding: 10px; border-radius: 3px; border-left: 3px solid #f5576c; \x7d\n                .rating \x7b font-size: 24px; \x7d\n                .footer \x7b text-align: center; margin-top: 20px; color: #888; font-size: 12px; \x7d\n            </style>\n        </head>\n        <body>\n            <div class=\"container\">\n                <div class=\"header\">\n                    <h2>⭐ New Review Received</h2>\n                </div>\n                <div class=\"content\">\n                    <div class=\"field\">\n                        <div class=\"field-label\">👤 Name:</div>\n                        <div class=\"field-value\">"
    ++ r.name
    ++ "</div>\n                    </div>\n                    <div class=\"field\">\n                        <div class=\"field-label\">📱 Phone:</div>\n                        <div class=\"field-value\"><a href=\"tel:"
    ++ r.phone
    ++ "\">"
    ++ r.phone
    ++ "</a></div>\n                    </div>\n                    <div class=\"field\">\n                        <div class=\"field-label\">⭐ Rating:</div>\n                        <div class=\"field-value rating\">"
    ++ starsFor r.rating
    ++ " ("
    ++ toString r.rating
    ++ "/5)</div>\n                    </div>\n                    <div class=\"field\">\n                        <div class=\"field-label\">💬 Review:</div>\n                        <div class=\"field-value\">"
    ++ pyReplaceChar r.comment '\n' "<br>"
    ++ "</div>\n                    </div>\n                    <div class=\"footer\">\n                        <p>Received at: "

/-- Rich-text body `admin_html` of `submit_review` in `main.py`. -/
def reviewRichBody (r : ReviewRequest) (t : String) : String :=
  reviewRichPre r ++ t ++ richSuffix

/-- Notification assembled by `discuss_project` in `main.py` and handed
to `send_email`: subject, the two bodies, `reply_to=data.email`, and the
`RECIPIENT_EMAIL` recipient (passed in as `rcpt`). -/
def discussFormat (d : DiscussProjectRequest) (t rcpt : String) : Notification :=
  { subject := "🎯 New Project Discussion - " ++ d.name
    plainBody := discussPlainBody d t
    richBody := discussRichBody d t
    replyTo := some d.email
    recipient := rcpt }

/-- Notification assembled by `submit_review` in `main.py` and handed to
`send_email`: `send_email` is called without `reply_to`, so the default
`None` applies. -/
def reviewFormat (r : ReviewRequest) (t rcpt : String) : Notification :=
  { subject := "⭐ New Review (" ++ toString r.rating ++ "/5) - " ++ r.name
    plainBody := reviewPlainBody r
    richBody := reviewRichBody r t
    replyTo := none
    recipient := rcpt }

/-- Containment of `pat` as a contiguous run in a character list; used to
state which substrings occur in the produced bodies (Python's `in`). -/
def charsContain (pat : List Char) : List Char → Bool
  | [] => pat.isEmpty
  | c :: cs => pat.isPrefixOf (c :: cs) || charsContain pat cs

/-- Containment of `pat` as a substring of `s` (Python's `pat in s`). -/
def strContains (s pat : String) : Bool :=
  charsContain pat.data s.data

/-- Uniform JSON response shape of `main.py`: HTTP status, the `success`
flag, and the optional `message`/`detail` fields. -/
structure ApiResponse where
  status : Nat
  success : Bool
  message : Option String
  detail : Option String
deriving Repr, DecidableEq

/-- One entry of `exc.errors()` consumed by the
`RequestValidationError` handler of `main.py`: the location path, the
message, and the error type string. -/
structure PydanticError where
  loc : List String
  msg : String
  typeStr : String
deriving Repr, DecidableEq

/-- Message built for one validation error by
`validation_exception_handler` in `main.py`: last location component (or
`field`), with the email/value_error rewrites. -/
def errorMessage (e : PydanticError) : String :=
  let field := (e.loc.getLast?).getD "field"
  if strContains e.typeStr "value_error.email" then
    "Invalid email format"
  else if strContains e.typeStr "value_error" then
    pyCapitalize field ++ ": " ++ e.msg
  else
    e.msg

/-- Handler `validation_exception_handler` of `main.py`: a 422 response
whose `detail` joins the per-error messages with `. `. -/
def validation_exception_handler (errors : List PydanticError) : ApiResponse :=
  { status := 422
    success := false
    message := none
    detail := some (String.intercalate ". " (errors.map errorMessage)) }

/-- Value stored in the `Reply-To` header by `send_email` in `main.py`:
the header is set only when `reply_to` is truthy (`if reply_to:`). -/
def emailReplyToHeader (replyTo : Option String) : Option String :=
  if pyTruthy replyTo then replyTo else none

/-- Outcome of the `send_email` call: delivered, or any raised exception
(SMTP connection/authentication failure, missing credentials, timeout),
carrying the exception text. -/
inductive DeliveryResult where
  | delivered
  | failed (msg : String)
deriving Repr, DecidableEq

/-- Fixed `detail` string of the 500 response of `discuss_project`. -/
def discussGenericError : String :=
  "Sorry, there was an error sending your message. Please try again."

/-- Fixed `detail` string of the 500 response of `submit_review`. -/
def reviewGenericError : String :=
  "Sorry, there was an error submitting your review. Please try again."

/-- Body of `discuss_project` in `main.py` after validation: format the
notification, hand it to the transport, map the outcome — 200 on success,
500 with the fixed generic detail when the transport raises (the `try`
block encloses the whole body, so no exception escapes the handler). -/
def discussEndpoint (d : DiscussProjectRequest) (t rcpt : String)
    (transport : Notification → DeliveryResult) : ApiResponse :=
  match transport (discussFormat d t rcpt) with
  | .delivered =>
      { status := 200, success := true
        message := some "Thank you! Your message has been sent successfully."
        detail := none }
  | .failed _ =>
      { status := 500, success := false
        message := none
        detail := some discussGenericError }

/-- Body of `submit_review` in `main.py` after validation, analogous to
`discussEndpoint`. -/
def reviewEndpoint (r : ReviewRequest) (t rcpt : String)
    (transport : Notification → DeliveryResult) : ApiResponse :=
  match transport (reviewFormat r t rcpt) with
  | .delivered =>
      { status := 200, success := true
        message := some "Thank you for your review!"
        detail := none }
  | .failed _ =>
      { status := 500, success := false
        message := none
        detail := some reviewGenericError }

/-- Rate-limiter bucket key: client identity (remote address) together
with the endpoint, matching the per-route `@limiter.limit` decoration. -/
abbrev ClientKey := String × String

/-- Per-bucket window entry: count of admitted attempts and the window
start time (seconds). -/
structure RateWindowEntry where
  count : Nat
  windowStart : Nat
deriving Repr, DecidableEq

/-- Bucket map of the limiter, keyed by `ClientKey`. -/
abbrev LimiterState := List (ClientKey × RateWindowEntry)

/-- Window length of the `5/15minutes` limit, in seconds. -/
def windowSeconds : Nat := 15 * 60

/-- Attempt limit of the `5/15minutes` limit. -/
def rateLimit : Nat := 5

def lookupEntry (st : LimiterState) (k : ClientKey) : Option RateWindowEntry :=
  match st.find? (fun p => p.1 == k) with
  | some p => some p.2
  | none => none

def setEntry (st : LimiterState) (k : ClientKey) (e : RateWindowEntry) : LimiterState :=
  (k, e) :: st.filter (fun p => !(p.1 == k))

/-- Modelled from the spec: the limiter itself lives in the external
`slowapi` library — the source only declares `limiter =
Limiter(key_func=get_remote_address)` and decorates each endpoint with
`@limiter.limit("5/15minutes")`.  Following §4.4 of the spec, this is a
fixed window of 15 minutes per (client, endpoint) bucket admitting at
most 5 attempts: an attempt in a fresh or elapsed window starts a new
window with count 1; within a live window it is admitted while the count
is below the limit and rejected otherwise. -/
def recordAttempt (st : LimiterState) (k : ClientKey) (now : Nat) : Bool × LimiterState :=
  match lookupEntry st k with
  | none => (true, setEntry st k ⟨1, now⟩)
  | some e =>
      if e.windowStart + windowSeconds ≤ now then
        (true, setEntry st k ⟨1, now⟩)
      else if e.count < rateLimit then
        (true, setEntry st k ⟨e.count + 1, e.windowStart⟩)
      else
        (false, st)

/-- Run a sequence of attempts (key, time) through the limiter, returning
the admission decisions. -/
def runAttempts (st : LimiterState) : List (ClientKey × Nat) → List Bool
  | [] => []
  | (k, t) :: rest =>
      let r := recordAttempt st k t
      r.1 :: runAttempts r.2 rest

/-- Modelled from the spec: a rejected attempt is answered by `slowapi`'s
`_rate_limit_exceeded_handler` with HTTP 429; an admitted attempt reaches
the endpoint handler (HTTP 200 when the rest of the pipeline succeeds). -/
def statusOfDecision (admitted : Bool) : Nat :=
  if admitted then 200 else 429

/-! Helper lemmas about substring containment. -/

theorem isPrefixOf_append_self (p b : List Char) : p.isPrefixOf (p ++ b) = true := by
  induction p with
  | nil => simp [List.isPrefixOf]
  | cons c cs ih => simp [List.isPrefixOf, List.cons_append, ih]

theorem charsContain_append (p a b : List Char) : charsContain p (a ++ p ++ b) = true := by
  induction a with
  | nil =>
    simp only [List.nil_append]
    cases hpb : p ++ b with
    | nil =>
      have hp : p = [] := (List.append_eq_nil.mp hpb).1
      subst hp
      rfl
    | cons c cs =>
      simp only [charsContain]
      rw [← hpb, isPrefixOf_append_self, Bool.true_or]
  | cons x xs ih =>
    rw [List.cons_append, List.cons_append]
    simp only [charsContain]
    rw [ih, Bool.or_true]

theorem strContains_of_data (s p : String) (a b : List Char)
    (h : s.data = a ++ p.data ++ b) : strContains s p = true := by
  unfold strContains
  rw [h]
  exact charsContain_append p.data a b

set_option maxRecDepth 40000

/-! Concrete requests used to evaluate the pipeline. -/

/-- Discuss-project submission whose comment carries a script tag; every
field passes the pydantic validators of `main.py`. -/
def c1Request : DiscussProjectRequest :=
  { name := "Jo", email := "jo@x.com", phone := "+1 (234) 567-890"
    productName := none, comment := "<script>alert(1)</script> hello" }

/-- Review submission with all fields valid. -/
def c2Review : ReviewRequest :=
  { name := "Jo", phone := "+1 (234) 567-8901", rating := 5
    comment := "Great team, thank you!" }

/-- Discuss-project submission with all fields valid and a product name
present. -/
def c2Discuss : DiscussProjectRequest :=
  { name := "Jo", email := "jo@x.com", phone := "+1 (234) 567-8901"
    productName := some "Widget", comment := "Please call us soon" }

/-- C1: the claim states that the rich-text body HTML-escapes every
user-supplied field before interpolation, so a comment containing
`<script>` reaches the HTML only escaped.  The code interpolates raw: for
the validated submission `c1Request` the raw tag `<script>alert(1)</script>`
occurs verbatim in the rich body, and no escaped form (`&lt;`) occurs
anywhere in it. -/
theorem C1_rich_body_script_reaches_html :
    validateName c1Request.name = Except.ok "Jo"
    ∧ validatePhone c1Request.phone = Except.ok "+1 (234) 567-890"
    ∧ validateComment c1Request.comment = Except.ok c1Request.comment
    ∧ strContains (discussRichBody c1Request "2026-10-12 00:00:00")
        "<script>alert(1)</script>" = true
    ∧ strContains (discussRichBody c1Request "2026-10-12 00:00:00") "&lt;" = false :=
  ⟨rfl, rfl, rfl, by decide, by decide⟩

/-- C2 counterexample: the claim states that the plain-text body of a
review lists name, phone, rating and comment as `Label: value`; for the
fully validated review `c2Review` the plain-text body does not contain the
string `Phone` at all. -/
theorem C2_review_plain_body_omits_phone :
    validateName c2Review.name = Except.ok "Jo"
    ∧ validatePhone c2Review.phone = Except.ok c2Review.phone
    ∧ validateRating c2Review.rating = Except.ok 5
    ∧ validateComment c2Review.comment = Except.ok c2Review.comment
    ∧ strContains (reviewPlainBody c2Review) "Phone" = false :=
  ⟨rfl, rfl, rfl, rfl, by decide⟩

/-- C2 (amended): the discuss-project plain-text body lists `Name:`,
`Email:` and `Phone:` with their values, the comment (newlines intact)
under a `Comment:` label, and — when the product name is truthy — a
`Product Name:` line; the review plain-text body is exactly
`New Review from {name}\nRating: {rating}/5\n\n{comment}`, with no phone
and no `Label: value` lines for name or comment. -/
theorem C2_plain_body_fields (d : DiscussProjectRequest) (r : ReviewRequest) (t : String) :
    strContains (discussPlainBody d t) ("Name: " ++ d.name) = true
    ∧ strContains (discussPlainBody d t) ("Email: " ++ d.email) = true
    ∧ strContains (discussPlainBody d t) ("Phone: " ++ d.phone) = true
    ∧ strContains (discussPlainBody d t) ("Comment:\n" ++ d.comment) = true
    ∧ (pyTruthy d.productName = true →
        strContains (discussPlainBody d t)
          ("Product Name: " ++ d.productName.getD "") = true)
    ∧ reviewPlainBody r
        = "New Review from " ++ r.name ++ "\nRating: " ++ toString r.rating
            ++ "/5\n\n" ++ r.comment := by
  refine ⟨?_, ?_, ?_, ?_, ?_, rfl⟩
  · refine strContains_of_data _ _ "\nNew Project Discussion Request\n\n".data
      ("\n" ++ "Email: " ++ d.email ++ "\n" ++ "Phone: " ++ d.phone ++ "\n"
        ++ (if pyTruthy d.productName then "Product Name: " ++ d.productName.getD "" else "")
        ++ "\n\n" ++ "Comment:\n" ++ d.comment ++ "\n\n" ++ "Received at: " ++ t
        ++ "\n        ").data ?_
    simp [discussPlainBody, discussPlainPre, String.data_append, List.append_assoc]
  · refine strContains_of_data _ _
      ("\nNew Project Discussion Request\n\n" ++ "Name: " ++ d.name ++ "\n").data
      ("\n" ++ "Phone: " ++ d.phone ++ "\n"
        ++ (if pyTruthy d.productName then "Product Name: " ++ d.productName.getD "" else "")
        ++ "\n\n" ++ "Comment:\n" ++ d.comment ++ "\n\n" ++ "Received at: " ++ t
        ++ "\n        ").data ?_
    simp [discussPlainBody, discussPlainPre, String.data_append, List.append_assoc]
  · refine strContains_of_data _ _
      ("\nNew Project Discussion Request\n\n" ++ "Name: " ++ d.name ++ "\n"
        ++ "Email: " ++ d.email ++ "\n").data
      ("\n"
        ++ (if pyTruthy d.productName then "Product Name: " ++ d.productName.getD "" else "")
        ++ "\n\n" ++ "Comment:\n" ++ d.comment ++ "\n\n" ++ "Received at: " ++ t
        ++ "\n        ").data ?_
    simp [discussPlainBody, discussPlainPre, String.data_append, List.append_assoc]
  · refine strContains_of_data _ _
      ("\nNew Project Discussion Request\n\n" ++ "Name: " ++ d.name ++ "\n"
        ++ "Email: " ++ d.email ++ "\n" ++ "Phone: " ++ d.phone ++ "\n"
        ++ (if pyTruthy d.productName then "Product Name: " ++ d.productName.getD "" else "")
        ++ "\n\n").data
      ("\n\n" ++ "Received at: " ++ t ++ "\n        ").data ?_
    simp [discussPlainBody, discussPlainPre, String.data_append, List.append_assoc]
  · intro h
    refine strContains_of_data _ _
      ("\nNew Project Discussion Request\n\n" ++ "Name: " ++ d.name ++ "\n"
        ++ "Email: " ++ d.email ++ "\n" ++ "Phone: " ++ d.phone ++ "\n").data
      ("\n\n" ++ "Comment:\n" ++ d.comment ++ "\n\n" ++ "Received at: " ++ t
        ++ "\n        ").data ?_
    simp [discussPlainBody, discussPlainPre, h, String.data_append, List.append_assoc]

/-- Witness for `C2_plain_body_fields` at a concrete submission with a
truthy product name. -/
theorem C2_plain_body_fields_witness :
    strContains (discussPlainBody c2Discuss "2026-01-01 00:00:00")
      ("Name: " ++ c2Discuss.name) = true
    ∧ strContains (discussPlainBody c2Discuss "2026-01-01 00:00:00")
      ("Product Name: " ++ c2Discuss.productName.getD "") = true :=
  ⟨(C2_plain_body_fields c2Discuss c2Review "2026-01-01 00:00:00").1,
   (C2_plain_body_fields c2Discuss c2Review "2026-01-01 00:00:00").2.2.2.2.1 (by decide)⟩

/-- C3: with the `5/15minutes` per-client per-endpoint limit, five
attempts from one client within a window are admitted and the sixth is
rejected (answered 429), an attempt from a different client in the same
window is admitted, and once the window has elapsed the original client
is admitted again. -/
theorem C3_rate_limit_window (c c2 ep : String) (t1 t2 t3 t4 t5 t6 t7 : Nat)
    (hc : c ≠ c2)
    (h2 : t2 < t1 + windowSeconds) (h3 : t3 < t1 + windowSeconds)
    (h4 : t4 < t1 + windowSeconds) (h5 : t5 < t1 + windowSeconds)
    (h6 : t6 < t1 + windowSeconds) (h7 : t1 + windowSeconds ≤ t7) :
    runAttempts [] [((c, ep), t1), ((c, ep), t2), ((c, ep), t3), ((c, ep), t4),
        ((c, ep), t5), ((c, ep), t6), ((c2, ep), t6), ((c, ep), t7)]
      = [true, true, true, true, true, false, true, true]
    ∧ (runAttempts [] [((c, ep), t1), ((c, ep), t2), ((c, ep), t3), ((c, ep), t4),
        ((c, ep), t5), ((c, ep), t6), ((c2, ep), t6), ((c, ep), t7)]).map statusOfDecision
      = [200, 200, 200, 200, 200, 429, 200, 200] := by
  have hne : ((c2, ep) : ClientKey) ≠ ((c, ep) : ClientKey) := by
    intro h
    exact hc (congrArg Prod.fst h).symm
  have hk1 : (((c, ep) : ClientKey) == ((c, ep) : ClientKey)) = true := beq_self_eq_true _
  have hk2 : (((c2, ep) : ClientKey) == ((c, ep) : ClientKey)) = false :=
    beq_eq_false_iff_ne.mpr hne
  have hk3 : (((c, ep) : ClientKey) == ((c2, ep) : ClientKey)) = false :=
    beq_eq_false_iff_ne.mpr (Ne.symm hne)
  have n2 : ¬ (t1 + windowSeconds ≤ t2) := Nat.not_le.mpr h2
  have n3 : ¬ (t1 + windowSeconds ≤ t3) := Nat.not_le.mpr h3
  have n4 : ¬ (t1 + windowSeconds ≤ t4) := Nat.not_le.mpr h4
  have n5 : ¬ (t1 + windowSeconds ≤ t5) := Nat.not_le.mpr h5
  have n6 : ¬ (t1 + windowSeconds ≤ t6) := Nat.not_le.mpr h6
  have hrun : runAttempts [] [((c, ep), t1), ((c, ep), t2), ((c, ep), t3), ((c, ep), t4),
      ((c, ep), t5), ((c, ep), t6), ((c2, ep), t6), ((c, ep), t7)]
      = [true, true, true, true, true, false, true, true] := by
    simp [runAttempts, recordAttempt, lookupEntry, setEntry, List.find?, List.filter, rateLimit,
      hk1, hk2, hk3, n2, n3, n4, n5, n6, h7]
  exact ⟨hrun, by rw [hrun]; rfl⟩

/-- Witness for `C3_rate_limit_window` at concrete clients and times. -/
theorem C3_rate_limit_window_witness :
    runAttempts [] [(("203.0.113.7", "/api/contact/discuss"), 0),
        (("203.0.113.7", "/api/contact/discuss"), 60),
        (("203.0.113.7", "/api/contact/discuss"), 120),
        (("203.0.113.7", "/api/contact/discuss"), 180),
        (("203.0.113.7", "/api/contact/discuss"), 240),
        (("203.0.113.7", "/api/contact/discuss"), 300),
        (("198.51.100.9", "/api/contact/discuss"), 300),
        (("203.0.113.7", "/api/contact/discuss"), 900)]
      = [true, true, true, true, true, false, true, true] :=
  (C3_rate_limit_window "203.0.113.7" "198.51.100.9" "/api/contact/discuss"
    0 60 120 180 240 300 900 (by decide) (by decide) (by decide) (by decide)
    (by decide) (by decide) (by decide)).1

/-- C4: when the mail transport raises on delivery — whatever the
exception text, covering unreachable SMTP, authentication failure,
missing credentials or a timeout — each endpoint answers 500 with
`success = false` and the endpoint's fixed generic `detail` string, which
does not depend on the exception (so it can leak neither credentials nor
server address nor exception detail); the catch-all `except` means the
handler returns a response for every outcome. -/
theorem C4_delivery_failure_generic_500 (d : DiscussProjectRequest) (r : ReviewRequest)
    (t rcpt m1 m2 : String) (tr1 tr2 : Notification → DeliveryResult)
    (h1 : tr1 (discussFormat d t rcpt) = DeliveryResult.failed m1)
    (h2 : tr2 (reviewFormat r t rcpt) = DeliveryResult.failed m2) :
    discussEndpoint d t rcpt tr1
      = { status := 500, success := false, message := none, detail := some discussGenericError }
    ∧ reviewEndpoint r t rcpt tr2
      = { status := 500, success := false, message := none, detail := some reviewGenericError } := by
  unfold discussEndpoint reviewEndpoint
  rw [h1, h2]
  exact ⟨rfl, rfl⟩

/-- Witness for `C4_delivery_failure_generic_500` with a transport that
fails with an SMTP authentication error. -/
theorem C4_delivery_failure_generic_500_witness :
    discussEndpoint c2Discuss "2026-01-01 00:00:00" "admin@solprod.example"
        (fun _ => DeliveryResult.failed "SMTPAuthenticationError")
      = { status := 500, success := false, message := none, detail := some discussGenericError }
    ∧ reviewEndpoint c2Review "2026-01-01 00:00:00" "admin@solprod.example"
        (fun _ => DeliveryResult.failed "Email credentials not configured")
      = { status := 500, success := false, message := none, detail := some reviewGenericError } :=
  C4_delivery_failure_generic_500 c2Discuss c2Review "2026-01-01 00:00:00"
    "admin@solprod.example" "SMTPAuthenticationError" "Email credentials not configured"
    (fun _ => DeliveryResult.failed "SMTPAuthenticationError")
    (fun _ => DeliveryResult.failed "Email credentials not configured") rfl rfl

/-- C5: for any list of field validation failures the handler answers
422 with `success = false`, and `detail` is the per-error messages joined
by `. ` — one message per failing field, not a single opaque message. -/
theorem C5_validation_422_joined (errors : List PydanticError) :
    validation_exception_handler errors
      = { status := 422, success := false, message := none,
          detail := some (String.intercalate ". " (errors.map errorMessage)) }
    ∧ (errors.map errorMessage).length = errors.length :=
  ⟨rfl, List.length_map errors errorMessage⟩

/-- C6: the notification of a discuss-project submission carries the
submitter's email as `Reply-To` (the header is set since a validated
`EmailStr` is non-empty, hence truthy); the review notification sets no
`Reply-To` (its `send_email` call omits the argument, defaulting to
`None`). -/
theorem C6_reply_to (d : DiscussProjectRequest) (r : ReviewRequest) (t rcpt : String)
    (h : d.email ≠ "") :
    emailReplyToHeader (discussFormat d t rcpt).replyTo = some d.email
    ∧ emailReplyToHeader (reviewFormat r t rcpt).replyTo = none := by
  constructor
  · show emailReplyToHeader (some d.email) = some d.email
    unfold emailReplyToHeader pyTruthy
    rw [if_pos (bne_iff_ne.mpr h)]
  · rfl

/-- Witness for `C6_reply_to` at concrete submissions. -/
theorem C6_reply_to_witness :
    emailReplyToHeader (discussFormat c2Discuss "2026-01-01 00:00:00" "admin@solprod.example").replyTo
      = some "jo@x.com"
    ∧ emailReplyToHeader (reviewFormat c2Review "2026-01-01 00:00:00" "admin@solprod.example").replyTo
      = none :=
  C6_reply_to c2Discuss c2Review "2026-01-01 00:00:00" "admin@solprod.example" (by decide)

/-- C7 counterexample: the claim reads the allowed characters as digits,
spaces, `+`, `-`, `(`, `)`; the regex class `\s` also admits other
whitespace, so `"12345\t67890"` — which contains a tab, a character that
is neither a digit nor a space nor one of `+ - ( )` — passes phone
validation instead of failing. -/
theorem C7_tab_accepted_counterexample :
    ('\t' ∈ "12345\t67890".data)
    ∧ ¬('\t'.isDigit = true ∨ '\t' = ' ' ∨ '\t' = '+' ∨ '\t' = '-'
        ∨ '\t' = '(' ∨ '\t' = ')')
    ∧ validatePhone "12345\t67890" = Except.ok "12345\t67890" :=
  ⟨by decide, by decide, rfl⟩

theorem sep_not_digit (c : Char) (h : isPhoneSeparator c = true) : c.isDigit = false := by
  unfold isPhoneSeparator pyIsSpace at h
  simp only [Bool.or_eq_true, beq_iff_eq] at h
  rcases h with (((((((((h | h) | h) | h) | h) | h) | h) | h) | h) | h) <;> subst h <;> rfl

theorem not_sep_eq_digit_of_phoneChar (c : Char) (h : isPhoneChar c = true) :
    (!isPhoneSeparator c) = c.isDigit := by
  unfold isPhoneChar at h
  cases hs : isPhoneSeparator c with
  | false =>
    rw [hs, Bool.or_false] at h
    rw [h]
    rfl
  | true =>
    rw [sep_not_digit c hs]
    rfl

/-- C7 (amended): on ASCII input, phone validation fails whenever the
string contains a character that is neither a digit nor whitespace
(space, tab, newline, carriage return, vertical tab, form feed) nor one
of `+ - ( )`; it fails whenever the string has fewer than 10 digit
characters; and on success it returns the input trimmed of surrounding
whitespace, separators retained. -/
theorem C7_phone_validation (v : String) (hA : ∀ c ∈ v.data, c.toNat < 128) :
    ((∃ c ∈ v.data, ¬(c.isDigit = true ∨ c = ' ' ∨ c = '\t' ∨ c = '\n' ∨ c = '\r'
        ∨ c = '\x0b' ∨ c = '\x0c' ∨ c = '+' ∨ c = '-' ∨ c = '(' ∨ c = ')'))
      → ∃ m, validatePhone v = Except.error m)
    ∧ (v.data.countP (fun c => c.isDigit) < 10 → ∃ m, validatePhone v = Except.error m)
    ∧ (∀ s, validatePhone v = Except.ok s → s = pyStrip v) := by
  refine ⟨?_, ?_, ?_⟩
  · rintro ⟨c, hc, hnc⟩
    have hpc : isPhoneChar c = false := by
      cases hq : isPhoneChar c with
      | false => rfl
      | true =>
        exfalso
        apply hnc
        unfold isPhoneChar isPhoneSeparator pyIsSpace at hq
        simp only [Bool.or_eq_true, beq_iff_eq] at hq
        tauto
    have hall : v.data.all isPhoneChar = false := by
      cases hb : v.data.all isPhoneChar with
      | false => rfl
      | true =>
        exfalso
        have := List.all_eq_true.mp hb c hc
        rw [hpc] at this
        exact Bool.false_ne_true this
    refine ⟨"Invalid phone number format", ?_⟩
    unfold validatePhone
    rw [hall]
    rfl
  · intro hcount
    by_cases hfmt : (!(v.data.all isPhoneChar) || v.data.isEmpty) = true
    · exact ⟨"Invalid phone number format", by unfold validatePhone; rw [if_pos hfmt]⟩
    · have hall : v.data.all isPhoneChar = true := by
        cases hb : v.data.all isPhoneChar with
        | true => rfl
        | false => exact absurd (by rw [hb]; rfl) hfmt
      have hlen : (stripSeparators v).length = v.data.countP (fun c => c.isDigit) := by
        show (v.data.filter (fun c => !isPhoneSeparator c)).length = _
        rw [List.filter_congr
          (fun c hc => not_sep_eq_digit_of_phoneChar c (List.all_eq_true.mp hall c hc))]
        rw [List.countP_eq_length_filter]
      refine ⟨"Phone number must contain at least 10 digits", ?_⟩
      unfold validatePhone
      rw [if_neg hfmt, if_pos (by rw [hlen]; exact hcount)]
  · intro s h
    unfold validatePhone at h
    split_ifs at h <;>
      first
      | exact Except.noConfusion h
      | (injection h with h; exact h.symm)

/-- Witness for `C7_phone_validation`: a string with a stray letter fails,
a string with too few digits fails, and a padded number is returned
trimmed. -/
theorem C7_phone_validation_witness :
    (∃ m, validatePhone "123456789a" = Except.error m)
    ∧ (∃ m, validatePhone "123" = Except.error m)
    ∧ "+1 (234) 567-8901" = pyStrip " +1 (234) 567-8901 " :=
  ⟨(C7_phone_validation "123456789a" (by decide)).1 ⟨'a', by decide, by decide⟩,
   (C7_phone_validation "123" (by decide)).2.1 (by decide),
   (C7_phone_validation " +1 (234) 567-8901 " (by decide)).2.2 "+1 (234) 567-8901" rfl⟩

/-- C8: rating validation succeeds returning the value unchanged exactly
on the integers 1..5 and fails with the range error exactly on the
integers outside [1, 5]. -/
theorem C8_rating_range (v : Int) :
    (validateRating v = Except.ok v ↔ 1 ≤ v ∧ v ≤ 5)
    ∧ (validateRating v = Except.error "Rating must be between 1 and 5" ↔ (v < 1 ∨ 5 < v)) := by
  by_cases h : v < 1 ∨ v > 5
  · have he : validateRating v = Except.error "Rating must be between 1 and 5" := by
      unfold validateRating
      rw [if_pos h]
    rw [he]
    exact ⟨⟨fun hx => Except.noConfusion hx, fun hx => (by omega : False).elim⟩,
           ⟨fun _ => by omega, fun _ => rfl⟩⟩
  · have he : validateRating v = Except.ok v := by
      unfold validateRating
      rw [if_neg h]
    rw [he]
    exact ⟨⟨fun _ => by omega, fun _ => rfl⟩,
           ⟨fun hx => Except.noConfusion hx, fun hx => (by omega : False).elim⟩⟩

/-- C9: formatting is deterministic given the submission and the
timestamp string — subjects never depend on the timestamp, the review
plain body never depends on it, and the discuss plain body differs
between runs only in the timestamp slot after `Received at: `
(the documented source of difference). -/
theorem C9_format_deterministic (d : DiscussProjectRequest) (r : ReviewRequest)
    (t1 t2 rcpt : String) :
    (discussFormat d t1 rcpt).subject = (discussFormat d t2 rcpt).subject
    ∧ (reviewFormat r t1 rcpt).subject = (reviewFormat r t2 rcpt).subject
    ∧ (reviewFormat r t1 rcpt).plainBody = (reviewFormat r t2 rcpt).plainBody
    ∧ ∃ pre suf : String, ∀ t, (discussFormat d t rcpt).plainBody = pre ++ t ++ suf :=
  ⟨rfl, rfl, rfl, ⟨discussPlainPre d, "\n        ", fun _ => rfl⟩⟩

/-- C10: a discuss-project submission with `productName = ""` formats to
exactly the same notification as one with `productName` absent — the
formatter tests truthiness (`if data.productName`), and the empty string
is falsy, so the Product Name block is omitted from both bodies. -/
theorem C10_empty_product_name_like_absent (n e p c t rcpt : String) :
    discussFormat { name := n, email := e, phone := p, productName := some "", comment := c } t rcpt
      = discussFormat { name := n, email := e, phone := p, productName := none, comment := c } t rcpt :=
  rfl

end SolBackForm
